import Mathlib

/-!
Verification of the SP Global combined parsing program
(`SPGlobal_CombinedParser.py`) against its natural-language specification.

The Python source is shallowly embedded:
* a spreadsheet row is a list of cells; a cell carries an optional explicit
  1-based `ss:Index` attribute and the optional raw text of its `ss:Data`
  child;
* Python floats are modelled exactly as rationals (`ℚ`); every numeric
  string handled by the program is a short decimal literal, for which the
  rational model agrees with binary floating point on all comparisons the
  program performs;
* fallible code returns `Option`, and code whose exceptions are caught by
  an enclosing handler is modelled with `Except`;
* string helpers (`strip`, `upper`, substring test, `replace`) are defined
  by structural recursion over character lists so that every definition
  evaluates by kernel reduction.
-/

set_option maxRecDepth 8000

namespace SPGlobal

instance exceptDecEq {ε α : Type} [DecidableEq ε] [DecidableEq α] :
    DecidableEq (Except ε α)
  | Except.ok a, Except.ok b =>
    if h : a = b then isTrue (by rw [h])
    else isFalse (by intro hh; cases hh; exact h rfl)
  | Except.ok _, Except.error _ => isFalse (by intro h; cases h)
  | Except.error _, Except.ok _ => isFalse (by intro h; cases h)
  | Except.error e, Except.error f =>
    if h : e = f then isTrue (by rw [h])
    else isFalse (by intro hh; cases hh; exact h rfl)

/-- Structural prefix test on character lists. -/
def isPre : List Char → List Char → Bool
  | [], _ => true
  | _ :: _, [] => false
  | a :: as, b :: bs => a == b && isPre as bs

/-- `listContains pat l` models Python's substring test `pat in l`. -/
def listContains (pat : List Char) : List Char → Bool
  | [] => isPre pat []
  | l@(_ :: t) => isPre pat l || listContains pat t

/-- Python `pat in s` on strings. -/
def sContains (s pat : String) : Bool := listContains pat.data s.data

/-- Python `str.strip()`: drop whitespace from both ends. -/
def listTrim (l : List Char) : List Char :=
  ((l.dropWhile Char.isWhitespace).reverse.dropWhile Char.isWhitespace).reverse

/-- Python `str.strip()` as a `String` operation. -/
def sTrim (s : String) : String := ⟨listTrim s.data⟩

/-- Python `str.upper()` (ASCII model, which covers every phrase the program
compares). -/
def sUpper (s : String) : String := ⟨s.data.map Char.toUpper⟩

/-- Value of a string of decimal digits. -/
def natOfDigitsL (l : List Char) : Nat :=
  l.foldl (fun a c => a * 10 + (c.toNat - 48)) 0

/-- One `ss:Cell` element: an optional explicit 1-based `ss:Index` attribute
and the optional text of its `ss:Data` child. -/
structure Cell where
  index : Option Nat
  text : Option String
deriving DecidableEq, Repr

/-- Text produced for a matched cell: the source returns
`data_element.text.strip()` when the data element exists and its text is
non-empty (truthy), and `None` otherwise. -/
def cellText (c : Cell) : Option String :=
  match c.text with
  | some t => if t = "" then none else some (sTrim t)
  | none => none

/-- The cell walk of `get_cell_data` (source lines 42-54): `cur` is the
running `current_index`, reset by an explicit index attribute. -/
def getCellAux : List Cell → Nat → Nat → Option String
  | [], _, _ => none
  | c :: rest, cur, target =>
    let cur2 := c.index.getD cur
    if cur2 = target then cellText c
    else getCellAux rest (cur2 + 1) target

/-- Model of `get_cell_data(row_element, cell_index, ns)` (source lines
35-55): find a cell in a row by its logical column index, starting the
carry-forward walk at 1. -/
def get_cell_data (row : List Cell) (cell_index : Nat) : Option String :=
  getCellAux row 1 cell_index

/-- Modelled from the spec: the resolved logical index of each cell, by the
carry-forward rule — the explicit index attribute if present, otherwise the
previous cell's resolved index + 1 (`cur` starts at 1). -/
def resolvedIndices : List Cell → Nat → List Nat
  | [], _ => []
  | c :: rest, cur =>
    let cur2 := c.index.getD cur
    cur2 :: resolvedIndices rest (cur2 + 1)

/-- Modelled from the spec: lookup by target index returns the text of the
(first) cell whose resolved index equals the target, or missing. -/
def lookupByResolved (row : List Cell) (target : Nat) : Option String :=
  match (row.zip (resolvedIndices row 1)).find? (fun p => p.2 == target) with
  | some p => cellText p.1
  | none => none

/-- Give every cell an explicit index attribute equal to its resolved
index. -/
def explicitize : List Cell → Nat → List Cell
  | [], _ => []
  | c :: rest, cur =>
    let cur2 := c.index.getD cur
    { c with index := some cur2 } :: explicitize rest (cur2 + 1)

theorem getCellAux_eq_find : ∀ (row : List Cell) (cur target : Nat),
    getCellAux row cur target =
      (match (row.zip (resolvedIndices row cur)).find? (fun p => p.2 == target) with
       | some p => cellText p.1
       | none => none)
  | [], _, _ => rfl
  | c :: rest, cur, target => by
    by_cases h : c.index.getD cur = target
    · simp [getCellAux, resolvedIndices, h]
    · simp only [getCellAux, resolvedIndices, List.zip_cons_cons, List.find?]
      have hb : ((c, c.index.getD cur).2 == target) = false := by
        simpa using h
      simp only [hb, if_neg h]
      exact getCellAux_eq_find rest (c.index.getD cur + 1) target

theorem getCellAux_explicitize : ∀ (row : List Cell) (cur s target : Nat),
    getCellAux (explicitize row cur) s target = getCellAux row cur target
  | [], _, _, _ => rfl
  | c :: rest, cur, s, target => by
    simp only [explicitize, getCellAux, Option.getD_some]
    by_cases h : c.index.getD cur = target
    · simp [h, cellText]
    · simp only [if_neg h]
      exact getCellAux_explicitize rest (c.index.getD cur + 1) _ target

/-- Python `value.replace(',', '')`: drop every comma. -/
def sDropCommas (s : String) : String := ⟨s.data.filter (fun c => c != ',')⟩

/-- Model of Python `float(...)` applied to the strings this program hands
it: an optional sign followed by decimal digits with at most one decimal
point and at least one digit. (Exponent, infinity and nan spellings never
occur in these reports and are not modelled.) The result is the exact
rational value of the literal; `none` models a raised `ValueError`. -/
def parseUnsignedChars (l : List Char) : Option ℚ :=
  let intPart := l.takeWhile (fun c => c != '.')
  let rest := l.dropWhile (fun c => c != '.')
  match rest with
  | [] =>
    if !intPart.isEmpty && intPart.all Char.isDigit then
      some (mkRat (Int.ofNat (natOfDigitsL intPart)) 1)
    else none
  | _ :: fracPart =>
    if fracPart.all (fun c => c != '.') &&
        (!intPart.isEmpty || !fracPart.isEmpty) &&
        intPart.all Char.isDigit && fracPart.all Char.isDigit then
      some (mkRat
        (Int.ofNat (natOfDigitsL intPart * 10 ^ fracPart.length +
          natOfDigitsL fracPart))
        (10 ^ fracPart.length))
    else none

/-- Signed decimal parse, the `float(...)` call of `clean_numeric`. -/
def parseDecimal? (s : String) : Option ℚ :=
  match s.data with
  | '-' :: body => (parseUnsignedChars body).map (fun q => -q)
  | '+' :: body => parseUnsignedChars body
  | body => parseUnsignedChars body

/-- Model of `clean_numeric(value)` (source lines 16-33): trim, turn
"XXX"/""/"NA" into the missing sentinel, strip wrapping parentheses into a
leading minus sign, drop commas, then parse; any failure is `none`.
A Python input that is `None` or not a string is the `none` case. -/
def clean_numeric : Option String → Option ℚ
  | none => none
  | some s =>
    let v := sTrim s
    if sContains (sUpper v) "XXX" || v == "" || v == "NA" then none
    else
      let v2 : String :=
        if v.data.head? == some '(' && v.data.getLast? == some ')' then
          ⟨'-' :: (v.data.drop 1).dropLast⟩
        else v
      parseDecimal? (sDropCommas v2)

/-- C3: the numeric normalizer is a total function applying its rules in
the stated order: missing input yields missing; after trimming, a value
whose uppercase contains "XXX" or that equals "" or "NA" yields missing; a
parenthesized value is negated; thousands-separator commas are stripped
before parsing; a parse failure yields missing rather than an exception
(the model is a total function into `Option ℚ`); in particular
normalize("(1,234.5)") = -1234.5 and normalize("XXX") = normalize("") =
normalize("NA") = missing. -/
theorem C3_clean_numeric_rules :
    clean_numeric none = none ∧
    (∀ s : String, sContains (sUpper (sTrim s)) "XXX" = true →
      clean_numeric (some s) = none) ∧
    (∀ s : String, sTrim s = "" → clean_numeric (some s) = none) ∧
    (∀ s : String, sTrim s = "NA" → clean_numeric (some s) = none) ∧
    clean_numeric (some "(1,234.5)") = some (-(12345 : ℚ) / 10) ∧
    clean_numeric (some "XXX") = none ∧
    clean_numeric (some "") = none ∧
    clean_numeric (some "NA") = none ∧
    clean_numeric (some " 1,234 ") = some (1234 : ℚ) ∧
    clean_numeric (some "(500)") = some (-500 : ℚ) ∧
    clean_numeric (some "12a") = none := by
  refine ⟨rfl, ?_, ?_, ?_, by with_unfolding_all decide, by decide, by decide,
    by decide, by with_unfolding_all decide, by with_unfolding_all decide,
    by decide⟩
  · intro s h
    simp [clean_numeric, h]
  · intro s h
    simp [clean_numeric, h]
  · intro s h
    simp [clean_numeric, h]

/-- Witness for C3 at concrete inputs with the hypotheses discharged. -/
theorem C3_clean_numeric_rules_witness :
    clean_numeric (some " 2 XXX 3 ") = none ∧
    clean_numeric (some "   ") = none ∧
    clean_numeric (some " NA ") = none :=
  ⟨C3_clean_numeric_rules.2.1 " 2 XXX 3 " (by decide),
   C3_clean_numeric_rules.2.2.1 "   " (by decide),
   C3_clean_numeric_rules.2.2.2.1 " NA " (by decide)⟩

/-- C1: cell lookup by logical column index obeys the carry-forward rule —
`get_cell_data` returns the text of the cell whose resolved index (its
explicit index attribute when present, otherwise the previous cell's
resolved index + 1) equals the target, or missing — and the result is
identical when every cell is given an explicit index attribute equal to its
resolved index, i.e. it does not matter whether all cells carry explicit
indices or only the ones that skip positions do. -/
theorem C1_cell_lookup_carry_forward (row : List Cell) (target : Nat) :
    get_cell_data row target = lookupByResolved row target ∧
    get_cell_data (explicitize row 1) target = get_cell_data row target := by
  constructor
  · exact getCellAux_eq_find row 1 target
  · exact getCellAux_explicitize row 1 1 target

/-- One `ss:Worksheet` element: the optional `ss:Name` attribute and the
rows found under it. (`worksheet.get(...)` yields Python `None` when the
attribute is absent.) -/
structure Worksheet where
  name : Option String
  rows : List (List Cell)
deriving DecidableEq

/-- The two phrase tests of `identify_report_type` on one cell text, in
source order: "EXHIBIT OF PREMIUMS AND LOSSES" wins over
"SCHEDULE P - PART 1" within a single cell. -/
def reportPhrase (t : String) : Option String :=
  let u := sUpper t
  if sContains u "EXHIBIT OF PREMIUMS AND LOSSES" then some "Page19"
  else if sContains u "SCHEDULE P - PART 1" then some "ScheduleP"
  else none

/-- One row of the classifier scan: columns 1-4 (`range(1, 5)`), left to
right, skipping cells with no (truthy) text. -/
def reportRowCheck (row : List Cell) : Option String :=
  ([1, 2, 3, 4] : List Nat).findSome? (fun i =>
    match get_cell_data row i with
    | some t => if t = "" then none else reportPhrase t
    | none => none)

/-- Model of `identify_report_type(rows, ns)` (source lines 57-71): scan the
first 5 rows, row-major; `some "Page19"` is the premium exhibit,
`some "ScheduleP"` the loss schedule, `none` is unknown (worksheet
skipped). -/
def identify_report_type (rows : List (List Cell)) : Option String :=
  (rows.take 5).findSome? reportRowCheck

theorem findSome?_eq_of_first {α β : Type} (d : α) (f : α → Option β) :
    ∀ (l : List α) (r : Nat) (v : β), r < l.length → f (l.getD r d) = some v →
      (∀ r2, r2 < r → f (l.getD r2 d) = none) → l.findSome? f = some v
  | [], r, v, hr, _, _ => by simp at hr
  | a :: t, r, v, hr, hv, hnone => by
    cases r with
    | zero =>
      simp only [List.getD_cons_zero] at hv
      simp [List.findSome?, hv]
    | succ r =>
      have h0 : f a = none := by
        have := hnone 0 (Nat.succ_pos r)
        simpa using this
      simp only [List.findSome?, h0]
      exact findSome?_eq_of_first d f t r v (by simpa using hr) (by simpa using hv)
        (fun r2 h2 => by
          have := hnone (r2 + 1) (by omega)
          simpa using this)

theorem findSome?_eq_none_of_all {α β : Type} (f : α → Option β) :
    ∀ l : List α, (∀ a ∈ l, f a = none) → l.findSome? f = none
  | [], _ => rfl
  | a :: t, h => by
    have h0 : f a = none := h a (by simp)
    simp only [List.findSome?, h0]
    exact findSome?_eq_none_of_all f t (fun b hb => h b (by simp [hb]))

/-- C6: the report classifier scans only the first 5 rows and, within them,
columns 1-4 row-major via `reportRowCheck`; the first row in scan order
whose check produces a classification wins (so a worksheet containing both
marker phrases with the premium-exhibit marker in an earlier row classifies
as the premium exhibit, `some "Page19"`), matching is by case-insensitive
substring against the two fixed phrases only, and a worksheet matching
neither phrase in the window classifies as unknown (`none`). -/
theorem C6_report_classifier (rows : List (List Cell)) :
    identify_report_type rows = identify_report_type (rows.take 5) ∧
    (∀ (r : Nat) (v : String), r < (rows.take 5).length →
      reportRowCheck ((rows.take 5).getD r []) = some v →
      (∀ r2, r2 < r → reportRowCheck ((rows.take 5).getD r2 []) = none) →
      identify_report_type rows = some v) ∧
    ((∀ row ∈ rows.take 5, reportRowCheck row = none) →
      identify_report_type rows = none) ∧
    reportPhrase "exhibit of premiums and losses, page 14" = some "Page19" ∧
    reportPhrase "* SCHEDULE P - PART 1 *" = some "ScheduleP" ∧
    reportPhrase "NO MARKER HERE" = none := by
  refine ⟨?_, ?_, ?_, by decide, by decide, by decide⟩
  · simp [identify_report_type, List.take_take]
  · intro r v hr hv hnone
    exact findSome?_eq_of_first [] reportRowCheck (rows.take 5) r v hr hv hnone
  · intro h
    exact findSome?_eq_none_of_all reportRowCheck (rows.take 5) h

/-- Witness for C6: a worksheet whose row 0 matches nothing, row 1 holds the
premium-exhibit phrase and row 2 the loss-schedule phrase classifies as
`some "Page19"`; a worksheet with no marker in the window is `none`. -/
theorem C6_report_classifier_witness :
    identify_report_type
      [[Cell.mk (some 1) (some "UNDERWRITING AND INVESTMENT EXHIBIT")],
       [Cell.mk (some 2) (some "Exhibit of Premiums and Losses (Statutory Page 14)")],
       [Cell.mk (some 1) (some "SCHEDULE P - PART 1 - SUMMARY")]] = some "Page19" ∧
    identify_report_type [[Cell.mk (some 1) (some "NOTES TO FINANCIAL STATEMENTS")]] = none := by
  constructor
  · refine (C6_report_classifier _).2.1 1 "Page19" (by decide) (by decide) ?_
    intro r2 h2
    have : r2 = 0 := by omega
    subst this
    decide
  · refine (C6_report_classifier _).2.2.1 ?_
    intro row hrow
    simp only [List.take, List.mem_singleton, List.mem_cons] at hrow
    rcases hrow with h | h
    · subst h; decide
    · simp at h

/-- Check 1 of `identify_sched_p_lob` (source lines 170-176): the header
text at row index 2 (third row), column 1, when the worksheet has at least
3 rows; substring tests in source order. `none` means this check produced
nothing. -/
def headerLob (rows : List (List Cell)) : Option String :=
  if rows.length ≥ 3 then
    match get_cell_data (rows.getD 2 []) 1 with
    | some t =>
      if t = "" then none
      else
        let u := sUpper t
        if sContains u "COMMERCIAL AUTO LIABILITY" then some "AL"
        else if sContains u "AUTO PHYSICAL DAMAGE" then some "APD"
        else if sContains u "SUMMARY" then some "SUMMARY"
        else none
    | none => none
  else none

/-- Checks 2 and 3 of `identify_sched_p_lob` (source lines 179-189): the
worksheet-name fallbacks, then the PG33 summary check, in source order. -/
def nameLob (n : String) : Option String :=
  let u := sUpper n
  if sContains u "COMM\x27L AUTO L" then some "AL"
  else if sContains u "AUTO PHYS" then some "APD"
  else if sContains u "PG33" then some "SUMMARY"
  else none

/-- Model of `identify_sched_p_lob(worksheet, rows, ns)` (source lines
164-189). The fallback checks call `.upper()` on the worksheet name; when
the `ss:Name` attribute is absent that raises `AttributeError`, modelled as
`Except.error`. `Except.ok none` is the unknown outcome. -/
def identify_sched_p_lob (w : Worksheet) : Except Unit (Option String) :=
  match headerLob w.rows with
  | some r => Except.ok (some r)
  | none =>
    match w.name with
    | none => Except.error ()
    | some n => Except.ok (nameLob n)

/-- C7: the schedule LOB classifier is a fixed priority chain — whatever
the header check at row 3, column 1 produces is the result, the
worksheet-name fallbacks (and then the PG33 check, which `nameLob` orders
last) run only when the header check produced nothing, and when no check
matches the result is unknown (`Except.ok none`). -/
theorem C7_sched_lob_priority :
    (∀ (w : Worksheet) (r : String), headerLob w.rows = some r →
      identify_sched_p_lob w = Except.ok (some r)) ∧
    (∀ (w : Worksheet) (n : String), headerLob w.rows = none →
      w.name = some n → identify_sched_p_lob w = Except.ok (nameLob n)) ∧
    (∀ n : String, sContains (sUpper n) "COMM\x27L AUTO L" = false →
      sContains (sUpper n) "AUTO PHYS" = true →
      sContains (sUpper n) "PG33" = true → nameLob n = some "APD") ∧
    (∀ n : String, sContains (sUpper n) "COMM\x27L AUTO L" = false →
      sContains (sUpper n) "AUTO PHYS" = false →
      sContains (sUpper n) "PG33" = false → nameLob n = none) := by
  refine ⟨?_, ?_, ?_, ?_⟩
  · intro w r h
    simp [identify_sched_p_lob, h]
  · intro w n hh hn
    simp [identify_sched_p_lob, hh, hn]
  · intro n h1 h2 h3
    simp [nameLob, h1, h2]
  · intro n h1 h2 h3
    simp [nameLob, h1, h2, h3]

/-- Witness for C7: the header check saying SUMMARY wins over a worksheet
name that names a line of business; the fallbacks decide only when the
header produced nothing; PG33 is last; nothing matching is unknown. -/
theorem C7_sched_lob_priority_witness :
    identify_sched_p_lob
      (Worksheet.mk (some "SCHP PG33 COMM\x27L AUTO L")
        [[], [], [Cell.mk (some 1) (some "SCHEDULE P - PART 1 - SUMMARY")]]) =
      Except.ok (some "SUMMARY") ∧
    identify_sched_p_lob
      (Worksheet.mk (some "SCHP PG35 AUTO PHYS")
        [[], [], [Cell.mk (some 1) (some "OTHER HEADER")]]) =
      Except.ok (nameLob "SCHP PG35 AUTO PHYS") ∧
    nameLob "SCHP PG33 AUTO PHYS" = some "APD" ∧
    nameLob "SCHP PG99 OTHER" = none := by
  refine ⟨?_, ?_, ?_, ?_⟩
  · exact C7_sched_lob_priority.1 _ "SUMMARY" (by decide)
  · exact C7_sched_lob_priority.2.1 _ _ (by decide) rfl
  · exact C7_sched_lob_priority.2.2.1 _ (by decide) (by decide) (by decide)
  · exact C7_sched_lob_priority.2.2.2 _ (by decide) (by decide) (by decide)

/-- `\S` of the regex: a non-whitespace character. -/
def isNonSpace (c : Char) : Bool := !c.isWhitespace

/-- The optional regex group `(?:\(NAIC #(\S+)\))?` followed by `$`, matched
against all of `u`: it succeeds exactly when `u` is
`"(NAIC #" ++ code ++ ")"` with `code` nonempty and whitespace-free
(greedy `\S+`, then `)`, then end of input). Returns the captured code. -/
def naicGroup? (u : List Char) : Option (List Char) :=
  if isPre "(NAIC #".data u then
    let v := u.drop 7
    let code := v.dropLast
    if v.getLastD ' ' == ')' && !code.isEmpty && code.all isNonSpace then
      some code
    else none
  else none

/-- Completion of the regex tail `(.*?) ?(?:\(NAIC #(\S+)\))?$` against the
text after `"NNNN OF THE "`: the lazy `(.*?)` tries the shortest company
capture first; at a fixed split the greedy optional space and the optional
NAIC group are mutually exclusive, so the first split that completes fixes
the captures. It always succeeds, since the company can absorb the whole
tail. `accRev` is the reversed company capture built so far. -/
def titleTail : List Char → List Char → List Char × Option (List Char)
  | accRev, [] => (accRev.reverse, none)
  | accRev, c :: rest =>
    if c == ' ' then
      match naicGroup? rest with
      | some code => (accRev.reverse, some code)
      | none =>
        if rest.isEmpty then (accRev.reverse, none)
        else titleTail (c :: accRev) rest
    else
      match naicGroup? (c :: rest) with
      | some code => (accRev.reverse, some code)
      | none => titleTail (c :: accRev) rest

/-- One candidate position of the search: four digits followed by the
literal `" OF THE "`, then the tail completion. -/
def tryTitleAt : List Char → Option (List Char × List Char × Option (List Char))
  | a :: b :: c :: d :: tail =>
    if a.isDigit && b.isDigit && c.isDigit && d.isDigit &&
        isPre " OF THE ".data tail then
      some ([a, b, c, d], (titleTail [] (tail.drop 8)).1, (titleTail [] (tail.drop 8)).2)
    else none
  | _ => none

/-- `re.search(r"(\d{4}) OF THE (.*?) ?(?:\(NAIC #(\S+)\))?$", s)` over
character positions, leftmost first. -/
def titleSearch : List Char → Option (List Char × List Char × Option (List Char))
  | [] => none
  | l@(_ :: t) =>
    match tryTitleAt l with
    | some r => some r
    | none => titleSearch t

/-- `str.strip(')')`: drop `)` characters from both ends. -/
def stripParens (l : List Char) : List Char :=
  ((l.dropWhile (fun c => c == ')')).reverse.dropWhile (fun c => c == ')')).reverse

/-- The common preamble pattern match of both extractors (source lines
108-110 and 223-225): year, stripped company, and NAIC code defaulting to
"N/A" when the suffix is absent; `none` when the pattern does not match
(worksheet yields zero records). -/
def titleMatch? (s : String) : Option (Nat × String × String) :=
  match titleSearch s.data with
  | none => none
  | some (yr, comp, code) =>
    some (natOfDigitsL yr, ⟨listTrim comp⟩,
      match code with
      | some cs => ⟨stripParens cs⟩
      | none => "N/A")

/-- The state scan of `process_page19_worksheet` (source lines 111-121):
first row among the first 5 whose column 2 mentions
"DIRECT BUSINESS IN THE STATE OF", then the first non-blank value in
columns 3-9 of that row, upper-cased, with any "GRAND TOTAL" collapsed to
"GRAND_TOTAL"; the default is "GRAND_TOTAL". -/
def findState (rows : List (List Cell)) : String :=
  match (rows.take 5).find? (fun row =>
      match get_cell_data row 2 with
      | some t => t != "" && sContains (sUpper t) "DIRECT BUSINESS IN THE STATE OF"
      | none => false) with
  | none => "GRAND_TOTAL"
  | some row =>
    match ([3, 4, 5, 6, 7, 8, 9] : List Nat).findSome? (fun j =>
        match get_cell_data row j with
        | some v => if v != "" && sTrim v != "" then some v else none
        | none => none) with
    | none => "GRAND_TOTAL"
    | some v =>
      let st := sUpper (sTrim v)
      if sContains st "GRAND TOTAL" then "GRAND_TOTAL" else st

/-- A cell's digit payload as recorded by `find_page19_header_map`:
requires truthy raw text whose stripped form is all digits (Python
`isdigit`) and nonempty. -/
def cellDigit? (c : Cell) : Option Nat :=
  match c.text with
  | some t =>
    if t = "" then none
    else
      let ts := listTrim t.data
      if !ts.isEmpty && ts.all Char.isDigit then some (natOfDigitsL ts) else none
  | none => none

/-- The carry-forward walk over the anchor row collecting
`number -> column index` entries in order (source lines 82-90); a repeated
number overwrites, so lookups take the last entry. -/
def collectNumberMap : List Cell → Nat → List (Nat × Nat)
  | [], _ => []
  | c :: rest, cur =>
    let cur2 := c.index.getD cur
    match cellDigit? c with
    | some n => (n, cur2) :: collectNumberMap rest (cur2 + 1)
    | none => collectNumberMap rest (cur2 + 1)

/-- Python dict assignment semantics: the last entry for a key wins. -/
def lookupLast (l : List (Nat × Nat)) (n : Nat) : Option Nat :=
  (l.reverse.find? (fun p => p.1 == n)).map (fun p => p.2)

/-- The anchor row of the premium-exhibit header: the first of the first 10
rows where column 8 reads "1" and column 9 reads "2". -/
def page19AnchorRow (rows : List (List Cell)) : Option (List Cell) :=
  (rows.take 10).find? (fun row =>
    get_cell_data row 8 == some "1" && get_cell_data row 9 == some "2")

/-- The four resolved columns of the premium-exhibit header map; each field
is the dict `.get` of the literal codes 1, 2, 6, 9. -/
structure Page19HeaderMap where
  dpw : Option Nat
  dpe : Option Nat
  dli : Option Nat
  ddcc : Option Nat
deriving DecidableEq

/-- Model of `find_page19_header_map(rows, ns)` (source lines 75-98):
`none` models the empty dict returned when no anchor row is found in the
first 10 rows or the anchor row holds no digit cell; otherwise the four
`.get` lookups, each possibly `None`. -/
def find_page19_header_map (rows : List (List Cell)) : Option Page19HeaderMap :=
  match page19AnchorRow rows with
  | none => none
  | some row =>
    let m := collectNumberMap row 1
    if m.isEmpty then none
    else some ⟨lookupLast m 1, lookupLast m 2, lookupLast m 6, lookupLast m 9⟩

/-- Python `round(x, 1)` (banker's rounding, ties to even), scaled by ten:
`roundTenths q` is the integer `n` such that `round(q, 1) = n / 10`. It is
computed on the exact representation: `f` is `⌊10q⌋` (the denominator is
positive, so `Int.fdiv` is the floor), and the fractional remainder
`(10 q.num - f q.den) / q.den` is compared against one half by
cross-multiplication. -/
def roundTenths (q : ℚ) : Int :=
  let f := Int.fdiv (10 * q.num) (Int.ofNat q.den)
  let rNum := 10 * q.num - f * Int.ofNat q.den
  if 2 * rNum < Int.ofNat q.den then f
  else if Int.ofNat q.den < 2 * rNum then f + 1
  else if f % 2 = 0 then f else f + 1

/-- The line-of-business test of the extraction loop (source lines
126-144): column 2 parsed as a float and rounded to one decimal; 19.3 and
19.4 are auto liability, 21.2 auto physical damage; anything else (or a
parse failure) yields no record for the row. -/
def lobOf (row : List Cell) : Option (String × String) :=
  match get_cell_data row 2 with
  | none => none
  | some t =>
    if t = "" then none
    else
      match parseDecimal? (sTrim t) with
      | none => none
      | some q =>
        let r := roundTenths q
        if r = 193 then some ("19.3", "AL")
        else if r = 194 then some ("19.4", "AL")
        else if r = 212 then some ("21.2", "APD")
        else none

/-- One emitted premium-exhibit record (dict literal of source lines
151-156, keys in insertion order). -/
structure PremiumRecord where
  YEAR : Nat
  Compan_Name : String
  NAIC : String
  State : String
  Liability : String
  LOB : String
  GWP : Option ℚ
  EP : Option ℚ
  LOSSES_INCURRED : ℚ
  DIRECT_LOSSES_INC : Option ℚ
  DCC : Option ℚ
deriving DecidableEq

/-- Assembly of one record from its data row: the four numeric fields are
read from `data_row` at the header-map columns; the combined losses treat a
missing operand as zero. -/
def mkPremiumRecord (year : Nat) (company naic state liab lob : String)
    (data_row : List Cell) (cW cE cL cD : Nat) : PremiumRecord :=
  let gwp := clean_numeric (get_cell_data data_row cW)
  let ep := clean_numeric (get_cell_data data_row cE)
  let losses := clean_numeric (get_cell_data data_row cL)
  let dcc := clean_numeric (get_cell_data data_row cD)
  { YEAR := year, Compan_Name := company, NAIC := naic, State := state,
    Liability := liab, LOB := lob, GWP := gwp, EP := ep,
    LOSSES_INCURRED := losses.getD 0 + dcc.getD 0,
    DIRECT_LOSSES_INC := losses, DCC := dcc }

/-- The extraction loop of `process_page19_worksheet` (source lines
125-156) over row positions `i`, with enough fuel to visit every row
(callers pass `ws.length`): rows whose column 2 is a recognized code emit a
record whose data row is `i + 1` for code 19.3 and `i` otherwise;
`all_rows[i+1]` past the end raises `IndexError`, modelled as
`Except.error`, which the worksheet-level handler later turns into zero
records for the whole worksheet. -/
def page19Go (ws : List (List Cell)) (cW cE cL cD : Nat) (year : Nat)
    (company naic state : String) : Nat → Nat → Except Unit (List PremiumRecord)
  | 0, _ => Except.ok []
  | fuel + 1, i =>
    if i < ws.length then
      match lobOf (ws.getD i []) with
      | none => page19Go ws cW cE cL cD year company naic state fuel (i + 1)
      | some (lob, liab) =>
        let j := if lob = "19.3" then i + 1 else i
        if j < ws.length then
          match page19Go ws cW cE cL cD year company naic state fuel (i + 1) with
          | Except.error e => Except.error e
          | Except.ok tail =>
            Except.ok (mkPremiumRecord year company naic state liab lob
              (ws.getD j []) cW cE cL cD :: tail)
        else Except.error ()
    else Except.ok []

/-- Model of `process_page19_worksheet(worksheet, ns)` (source lines
100-160): preamble checks, then the extraction loop; any modelled exception
inside the `try` block yields zero records for the worksheet. -/
def process_page19_worksheet (w : Worksheet) : List PremiumRecord :=
  if w.rows.length = 0 then []
  else
    match get_cell_data (w.rows.getD 0 []) 2 with
    | none => []
    | some header_string =>
      if header_string = "" then []
      else
        match titleMatch? header_string with
        | none => []
        | some (year, company, naic) =>
          match find_page19_header_map w.rows with
          | none => []
          | some hm =>
            match hm.dpw, hm.dpe, hm.dli, hm.ddcc with
            | some cW, some cE, some cL, some cD =>
              match page19Go w.rows cW cE cL cD year company naic
                  (findState w.rows) w.rows.length 0 with
              | Except.error _ => []
              | Except.ok l => l
            | _, _, _, _ => []

/-- C2: in premium-exhibit extraction, a worksheet row `i` whose column-2
value parses and rounds (to one decimal) to 19.3 emits a record whose
numeric fields are read from row `i + 1`, while codes 19.4 and 21.2 emit a
record read from row `i` itself: the loop prepends
`mkPremiumRecord ... (ws.getD (i+1) [])` for 19.3 and
`mkPremiumRecord ... (ws.getD i [])` for the other two codes, ahead of the
records of the remaining rows. -/
theorem C2_premium_lag (ws : List (List Cell)) (cW cE cL cD year : Nat)
    (company naic state : String) (fuel i : Nat) (t : String) (q : ℚ)
    (tail : List PremiumRecord)
    (hi : i < ws.length)
    (ht : get_cell_data (ws.getD i []) 2 = some t) (hne : t ≠ "")
    (hq : parseDecimal? (sTrim t) = some q)
    (htail : page19Go ws cW cE cL cD year company naic state fuel (i + 1) =
      Except.ok tail) :
    (roundTenths q = 193 → i + 1 < ws.length →
      page19Go ws cW cE cL cD year company naic state (fuel + 1) i =
        Except.ok (mkPremiumRecord year company naic state "AL" "19.3"
          (ws.getD (i + 1) []) cW cE cL cD :: tail)) ∧
    (roundTenths q = 194 →
      page19Go ws cW cE cL cD year company naic state (fuel + 1) i =
        Except.ok (mkPremiumRecord year company naic state "AL" "19.4"
          (ws.getD i []) cW cE cL cD :: tail)) ∧
    (roundTenths q = 212 →
      page19Go ws cW cE cL cD year company naic state (fuel + 1) i =
        Except.ok (mkPremiumRecord year company naic state "APD" "21.2"
          (ws.getD i []) cW cE cL cD :: tail)) := by
  refine ⟨?_, ?_, ?_⟩
  · intro hr hnext
    have hlob : lobOf (ws.getD i []) = some ("19.3", "AL") := by
      simp only [lobOf, ht, hq, hr, if_neg hne]
      simp
    simp only [page19Go, if_pos hi, hlob]
    simp [htail, hnext]
  · intro hr
    have hlob : lobOf (ws.getD i []) = some ("19.4", "AL") := by
      simp only [lobOf, ht, hq, hr, if_neg hne]
      simp
    simp only [page19Go, if_pos hi, hlob]
    simp [htail, hi]
  · intro hr
    have hlob : lobOf (ws.getD i []) = some ("21.2", "APD") := by
      simp only [lobOf, ht, hq, hr, if_neg hne]
      simp
    simp only [page19Go, if_pos hi, hlob]
    simp [htail, hi]

/-- Witness worksheet rows for C2: a 19.3 row followed by a totals row. -/
def c2Rows : List (List Cell) :=
  [[Cell.mk (some 2) (some "19.3")],
   [Cell.mk (some 2) (some "TOTALS"), Cell.mk (some 8) (some "7,500")]]

/-- Witness for C2 at a concrete worksheet: the 19.3 record is read from
the following row (its written premium is the 7,500 found there). -/
theorem C2_premium_lag_witness :
    page19Go c2Rows 8 9 10 11 2022 "ACME" "12345" "GRAND_TOTAL" 2 0 =
      Except.ok [mkPremiumRecord 2022 "ACME" "12345" "GRAND_TOTAL" "AL" "19.3"
        (c2Rows.getD 1 []) 8 9 10 11] ∧
    (mkPremiumRecord 2022 "ACME" "12345" "GRAND_TOTAL" "AL" "19.3"
      (c2Rows.getD 1 []) 8 9 10 11).GWP = some (mkRat 7500 1) := by
  constructor
  · exact (C2_premium_lag c2Rows 8 9 10 11 2022 "ACME" "12345" "GRAND_TOTAL"
      1 0 "19.3" (mkRat 193 10) [] (by decide) (by decide) (by decide)
      (by decide) (by decide)).1 (by decide) (by decide)
  · decide

theorem page19Go_error_of_last193 (ws : List (List Cell))
    (cW cE cL cD year : Nat) (company naic state : String) (liab : String)
    (hlast : lobOf (ws.getD (ws.length - 1) []) = some ("19.3", liab)) :
    ∀ fuel i, i < ws.length → ws.length ≤ i + fuel →
      page19Go ws cW cE cL cD year company naic state fuel i =
        Except.error () := by
  intro fuel
  induction fuel with
  | zero => intro i hi hle; omega
  | succ fuel ih =>
    intro i hi hle
    rcases Nat.lt_or_ge (i + 1) ws.length with hlt | hge
    · have hrec := ih (i + 1) hlt (by omega)
      cases hcase : lobOf (ws.getD i []) with
      | none =>
        simp only [page19Go, if_pos hi, hcase]
        exact hrec
      | some p =>
        obtain ⟨lob, liab2⟩ := p
        simp only [page19Go, if_pos hi, hcase]
        by_cases h3 : lob = "19.3"
        · subst h3
          simp [hlt, hrec]
        · simp [h3, hi, hrec]
    · have hi2 : i = ws.length - 1 := by omega
      have hlob : lobOf (ws.getD i []) = some ("19.3", liab) := by
        rw [hi2]; exact hlast
      have hj : ¬ (i + 1 < ws.length) := by omega
      simp only [page19Go, if_pos hi, hlob]
      simp [hj]

/-- C10: when the line-of-business code 19.3 sits in column 2 of the last
row of a premium-exhibit worksheet, the lagged data-row read indexes one
past the end of the row list; the raised `IndexError` is caught by the
worksheet-level handler and the whole worksheet yields zero records,
discarding records already assembled from earlier rows. -/
theorem C10_last_row_193_discards (w : Worksheet) (liab : String)
    (hne : w.rows ≠ [])
    (hlast : lobOf (w.rows.getD (w.rows.length - 1) []) =
      some ("19.3", liab)) :
    process_page19_worksheet w = [] := by
  have hlen : 0 < w.rows.length := List.length_pos.mpr hne
  unfold process_page19_worksheet
  rw [if_neg (by omega)]
  cases h1 : get_cell_data (w.rows.getD 0 []) 2 with
  | none => rfl
  | some header_string =>
    dsimp only
    by_cases h2 : header_string = ""
    · simp [h2]
    · rw [if_neg h2]
      cases h3 : titleMatch? header_string with
      | none => rfl
      | some ycn =>
        obtain ⟨year, company, naic⟩ := ycn
        dsimp only
        cases h4 : find_page19_header_map w.rows with
        | none => rfl
        | some hm =>
          dsimp only
          cases hW : hm.dpw with
          | none => rfl
          | some cW =>
            cases hE : hm.dpe with
            | none => rfl
            | some cE =>
              cases hL : hm.dli with
              | none => rfl
              | some cL =>
                cases hD : hm.ddcc with
                | none => rfl
                | some cD =>
                  have herr := page19Go_error_of_last193 w.rows cW cE cL cD
                    year company naic (findState w.rows) liab hlast
                    w.rows.length 0 hlen (by omega)
                  dsimp only
                  rw [herr]

/-- Witness worksheet for C10: a valid premium-exhibit sheet with a good
21.2 row and a trailing 19.3 row. -/
def c10Sheet : Worksheet :=
  Worksheet.mk (some "PG14")
    [[Cell.mk (some 2) (some "2022 OF THE ACME CO (NAIC #1)")],
     [Cell.mk (some 8) (some "1"), Cell.mk none (some "2"),
      Cell.mk none (some "6"), Cell.mk none (some "9")],
     [Cell.mk (some 2) (some "21.2"), Cell.mk (some 8) (some "10"),
      Cell.mk none (some "20"), Cell.mk none (some "30"),
      Cell.mk none (some "40")],
     [Cell.mk (some 2) (some "19.3")]]

/-- The same worksheet without its trailing 19.3 row. -/
def c10SheetShort : Worksheet :=
  Worksheet.mk (some "PG14") (c10Sheet.rows.take 3)

/-- Witness for C10: the worksheet with the trailing 19.3 row yields zero
records even though the same worksheet without that row yields one. -/
theorem C10_last_row_193_discards_witness :
    process_page19_worksheet c10Sheet = [] ∧
    (process_page19_worksheet c10SheetShort).length = 1 := by
  constructor
  · exact C10_last_row_193_discards c10Sheet "AL" (by decide)
      (by with_unfolding_all decide)
  · with_unfolding_all decide

/-- The three resolved columns of the loss-schedule header map. -/
structure ScheduleColumnMap where
  ep : Nat
  lossesInc : Nat
  claims : Nat
deriving DecidableEq

/-- One row of the schedule header scan (source lines 196-206): the
carry-forward cell walk recording each of the target tokens "1", "25",
"26" the first time it is seen, as a `number -> column` entry. -/
def schedScanRow : List Cell → Nat → List (Nat × Nat) → List (Nat × Nat)
  | [], _, found => found
  | c :: rest, cur, found =>
    let cur2 := c.index.getD cur
    let found2 :=
      match c.text with
      | some t =>
        if t = "" then found
        else
          let ts : String := ⟨listTrim t.data⟩
          if (ts == "1" || ts == "25" || ts == "26") &&
              (found.find? (fun p => p.1 == natOfDigitsL ts.data)).isNone then
            found ++ [(natOfDigitsL ts.data, cur2)]
          else found
      | none => found
    schedScanRow rest (cur2 + 1) found2

/-- The row loop of the schedule header scan: stop after the row in which
the third target was found. -/
def schedScanRows : List (List Cell) → List (Nat × Nat) → List (Nat × Nat)
  | [], found => found
  | r :: rs, found =>
    let found2 := schedScanRow r 1 found
    if found2.length = 3 then found2 else schedScanRows rs found2

/-- First occurrence lookup in the scan result (each target is recorded at
most once). -/
def lookupFirst (l : List (Nat × Nat)) (n : Nat) : Option Nat :=
  (l.find? (fun p => p.1 == n)).map (fun p => p.2)

/-- Model of `find_schedule_p_headers(rows, ns)` (source lines 191-213):
scan the first 50 rows for the tokens "1", "25", "26"; `none` models the
empty dict returned when fewer than all three are found. -/
def find_schedule_p_headers (rows : List (List Cell)) : Option ScheduleColumnMap :=
  let m := schedScanRows (rows.take 50) []
  if m.length = 3 then
    match lookupFirst m 1, lookupFirst m 26, lookupFirst m 25 with
    | some a, some b, some c => some ⟨a, b, c⟩
    | _, _, _ => none
  else none

/-- Python `if not all(column_map.values())` (source line 227): the empty
dict ({} from a failed header scan) has `all(...) = True`; a populated map
fails the test only when one of its values is falsy (0 or `None`; the
modelled map stores ints, where 0 is falsy). -/
def allColumnValuesTruthy : Option ScheduleColumnMap → Bool
  | none => true
  | some c => c.ep != 0 && c.lossesInc != 0 && c.claims != 0

/-- The anchor search of `process_schedule_p_worksheet` (source lines
228-232): positions of the rows whose column 3 text contains the
case-sensitive substring "Prior". -/
def priorRowIndices (rows : List (List Cell)) : List Nat :=
  rows.enum.filterMap (fun p =>
    match get_cell_data p.2 3 with
    | some y => if y != "" && sContains y "Prior" then some p.1 else none
    | none => none)

/-- One emitted loss-schedule record (dict literal of source lines
241-246). -/
structure ScheduleRecord where
  REPORT_YEAR : Nat
  Company_Name : String
  NAIC : String
  LOB : String
  YEAR : String
  EP : Option ℚ
  LOSSES_INC : Option ℚ
  CLAIMS : Option ℚ
deriving DecidableEq

/-- The 12-iteration block loop of `process_schedule_p_worksheet` (source
lines 235-246), with `fuel` counting the remaining iterations (callers pass
12) and `i` the current offset. Reading `column_map["EP"]` on the empty
dict raises `KeyError`, modelled as `Except.error`; an out-of-range block
row breaks the loop. -/
def schedLoop (rows : List (List Cell)) (cm : Option ScheduleColumnMap)
    (repYear : Nat) (comp naic lob : String) (sE sC sL : Nat) :
    Nat → Nat → Except Unit (List ScheduleRecord)
  | 0, _ => Except.ok []
  | fuel + 1, i =>
    if sE + i < rows.length ∧ sC + i < rows.length ∧ sL + i < rows.length then
      match get_cell_data (rows.getD (sE + i) []) 3 with
      | none => schedLoop rows cm repYear comp naic lob sE sC sL fuel (i + 1)
      | some y =>
        if y = "" then schedLoop rows cm repYear comp naic lob sE sC sL fuel (i + 1)
        else
          match cm with
          | none => Except.error ()
          | some c =>
            match schedLoop rows cm repYear comp naic lob sE sC sL fuel (i + 1) with
            | Except.error e => Except.error e
            | Except.ok tail =>
              Except.ok
                ({ REPORT_YEAR := repYear,
                   Company_Name := comp,
                   NAIC := naic,
                   LOB := lob,
                   YEAR := y,
                   EP := clean_numeric (get_cell_data (rows.getD (sE + i) []) c.ep),
                   LOSSES_INC := clean_numeric
                     (get_cell_data (rows.getD (sL + i) []) c.lossesInc),
                   CLAIMS := clean_numeric
                     (get_cell_data (rows.getD (sC + i) []) c.claims) } :: tail)
    else Except.ok []

/-- Model of `process_schedule_p_worksheet(worksheet, ns, lob)` (source
lines 215-250): preamble, header-map truthiness guard, the three "Prior"
anchors, then the block loop; any modelled exception inside the `try`
block yields zero records for the worksheet. -/
def process_schedule_p_worksheet (w : Worksheet) (lob : String) :
    List ScheduleRecord :=
  if w.rows.length = 0 then []
  else
    match get_cell_data (w.rows.getD 0 []) 2 with
    | none => []
    | some header_string =>
      if header_string = "" then []
      else
        match titleMatch? header_string with
        | none => []
        | some (repYear, comp, naic) =>
          if !allColumnValuesTruthy (find_schedule_p_headers w.rows) then []
          else
            match priorRowIndices w.rows with
            | sE :: sC :: sL :: _ =>
              match schedLoop w.rows (find_schedule_p_headers w.rows) repYear
                  comp naic lob sE sC sL 12 0 with
              | Except.error _ => []
              | Except.ok l => l
            | _ => []

theorem schedLoop_none (rows : List (List Cell)) (repYear : Nat)
    (comp naic lob : String) (sE sC sL : Nat) :
    ∀ fuel i,
      schedLoop rows none repYear comp naic lob sE sC sL fuel i =
          Except.error () ∨
        schedLoop rows none repYear comp naic lob sE sC sL fuel i =
          Except.ok [] := by
  intro fuel
  induction fuel with
  | zero => intro i; right; rfl
  | succ fuel ih =>
    intro i
    by_cases hb : sE + i < rows.length ∧ sC + i < rows.length ∧
        sL + i < rows.length
    · cases hy : get_cell_data (rows.getD (sE + i) []) 3 with
      | none =>
        simp only [schedLoop, if_pos hb, hy]
        exact ih (i + 1)
      | some y =>
        by_cases hy2 : y = ""
        · simp only [schedLoop, if_pos hb, hy, if_pos hy2]
          exact ih (i + 1)
        · left
          simp only [schedLoop, if_pos hb, hy, if_neg hy2]
    · right
      simp only [schedLoop, if_neg hb]

/-- C4: a worksheet in which header resolution fails yields zero records
and no error escapes. Loss-schedule variant: fewer than all three target
tokens "1", "25", "26" found within the first 50 rows (the scan ends with
fewer than 3 entries, so `find_schedule_p_headers` returns the empty map);
premium-exhibit variant: a missing anchor row (the header map is the empty
dict) or any untranslated code (some required field of the map is `None`).
In both variants extraction is the total function `[]` on such worksheets;
the schedule variant reaches this through a `KeyError` caught by the
worksheet handler when at least three "Prior" anchors exist. -/
theorem C4_header_failure_zero_records :
    (∀ (w : Worksheet) (lob : String),
      (schedScanRows (w.rows.take 50) []).length < 3 →
      process_schedule_p_worksheet w lob = []) ∧
    (∀ w : Worksheet,
      (page19AnchorRow w.rows = none ∨
        ∃ hm, find_page19_header_map w.rows = some hm ∧
          (hm.dpw = none ∨ hm.dpe = none ∨ hm.dli = none ∨ hm.ddcc = none)) →
      process_page19_worksheet w = []) := by
  constructor
  · intro w lob hscan
    have hmap : find_schedule_p_headers w.rows = none := by
      unfold find_schedule_p_headers
      rw [if_neg (by omega)]
    unfold process_schedule_p_worksheet
    by_cases h0 : w.rows.length = 0
    · rw [if_pos h0]
    · rw [if_neg h0]
      cases h1 : get_cell_data (w.rows.getD 0 []) 2 with
      | none => rfl
      | some header_string =>
        dsimp only
        by_cases h2 : header_string = ""
        · rw [if_pos h2]
        · rw [if_neg h2]
          cases h3 : titleMatch? header_string with
          | none => rfl
          | some rcn =>
            obtain ⟨repYear, comp, naic⟩ := rcn
            dsimp only
            rw [hmap]
            rw [if_neg (by simp [allColumnValuesTruthy])]
            cases h4 : priorRowIndices w.rows with
            | nil => rfl
            | cons sE t1 =>
              cases t1 with
              | nil => rfl
              | cons sC t2 =>
                cases t2 with
                | nil => rfl
                | cons sL t3 =>
                  dsimp only
                  rcases schedLoop_none w.rows repYear comp naic lob
                      sE sC sL 12 0 with he | he
                  · rw [he]
                  · rw [he]
  · intro w hbad
    unfold process_page19_worksheet
    by_cases h0 : w.rows.length = 0
    · rw [if_pos h0]
    · rw [if_neg h0]
      cases h1 : get_cell_data (w.rows.getD 0 []) 2 with
      | none => rfl
      | some header_string =>
        dsimp only
        by_cases h2 : header_string = ""
        · rw [if_pos h2]
        · rw [if_neg h2]
          cases h3 : titleMatch? header_string with
          | none => rfl
          | some ycn =>
            obtain ⟨year, company, naic⟩ := ycn
            dsimp only
            rcases hbad with hanchor | ⟨hm, hhm, hfield⟩
            · have : find_page19_header_map w.rows = none := by
                unfold find_page19_header_map
                rw [hanchor]
              rw [this]
            · rw [hhm]
              dsimp only
              rcases hfield with hf | hf | hf | hf
              · rw [hf]
              · cases hW : hm.dpw with
                | none => rfl
                | some cW => rw [hf]
              · cases hW : hm.dpw with
                | none => rfl
                | some cW =>
                  cases hE : hm.dpe with
                  | none => rfl
                  | some cE => rw [hf]
              · cases hW : hm.dpw with
                | none => rfl
                | some cW =>
                  cases hE : hm.dpe with
                  | none => rfl
                  | some cE =>
                    cases hL : hm.dli with
                    | none => rfl
                    | some cL => rw [hf]

/-- Witness worksheets for C4: a schedule sheet whose scan finds only the
tokens "1" and "25", and a premium sheet with no numbered-header anchor
row. -/
def c4SchedSheet : Worksheet :=
  Worksheet.mk (some "PG33")
    [[Cell.mk (some 2) (some "2022 OF THE ACME CO (NAIC #1)")],
     [Cell.mk (some 3) (some "1"), Cell.mk none (some "25")],
     [Cell.mk (some 3) (some "Prior")]]

/-- A premium-exhibit worksheet with no anchor row (column 8 never reads
"1" next to a column 9 reading "2"). -/
def c4PremiumSheet : Worksheet :=
  Worksheet.mk (some "PG14")
    [[Cell.mk (some 2) (some "2022 OF THE ACME CO (NAIC #1)")],
     [Cell.mk (some 2) (some "21.2"), Cell.mk (some 8) (some "10")]]

/-- Witness for C4: both worksheets yield zero records. -/
theorem C4_header_failure_zero_records_witness :
    process_schedule_p_worksheet c4SchedSheet "AL" = [] ∧
    process_page19_worksheet c4PremiumSheet = [] :=
  ⟨C4_header_failure_zero_records.1 c4SchedSheet "AL" (by decide),
   C4_header_failure_zero_records.2 c4PremiumSheet (Or.inl (by decide))⟩

/-- The deduplication key of the premium output (source line 299):
`subset=['NAIC', 'YEAR', 'State', 'LOB']`. -/
def premiumKey (r : PremiumRecord) : String × Nat × String × String :=
  (r.NAIC, r.YEAR, r.State, r.LOB)

/-- `drop_duplicates(subset=['NAIC','YEAR','State','LOB'], keep='first')`
(source line 299): keep a record exactly when its key was not seen earlier
in input order. -/
def drop_duplicates_premium : List PremiumRecord →
    List (String × Nat × String × String) → List PremiumRecord
  | [], _ => []
  | r :: rest, seen =>
    if premiumKey r ∈ seen then drop_duplicates_premium rest seen
    else r :: drop_duplicates_premium rest (premiumKey r :: seen)

/-- Insertion step of the sorting model. -/
def insertLe {α : Type} (le : α → α → Bool) (a : α) : List α → List α
  | [] => [a]
  | b :: t => if le a b then a :: b :: t else b :: insertLe le a t

/-- Sorting model for `DataFrame.sort_values`. -/
def sortLe {α : Type} (le : α → α → Bool) : List α → List α
  | [] => []
  | a :: t => insertLe le a (sortLe le t)

theorem insertLe_perm {α : Type} (le : α → α → Bool) (a : α) :
    ∀ l : List α, List.Perm (insertLe le a l) (a :: l)
  | [] => List.Perm.refl _
  | b :: t => by
    simp only [insertLe]
    by_cases h : le a b
    · rw [if_pos h]
    · rw [if_neg h]
      exact ((insertLe_perm le a t).cons b).trans (List.Perm.swap a b t)

theorem sortLe_perm {α : Type} (le : α → α → Bool) :
    ∀ l : List α, List.Perm (sortLe le l) l
  | [] => List.Perm.refl _
  | a :: t =>
    (insertLe_perm le a (sortLe le t)).trans ((sortLe_perm le t).cons a)

/-- Lexicographic chaining of comparisons. -/
def ordLex (c : Ordering) (next : Bool) : Bool :=
  match c with
  | Ordering.lt => true
  | Ordering.gt => false
  | Ordering.eq => next

/-- The sort key of the premium output (source line 300):
`by=["Compan_Name", "YEAR", "State", "Liability", "LOB"]`. -/
def premiumSortLe (a b : PremiumRecord) : Bool :=
  ordLex (compare a.Compan_Name b.Compan_Name)
    (ordLex (compare a.YEAR b.YEAR)
      (ordLex (compare a.State b.State)
        (ordLex (compare a.Liability b.Liability)
          (ordLex (compare a.LOB b.LOB) true))))

/-- The sort key of the schedule output (source line 309):
`by=["Company_Name", "REPORT_YEAR", "LOB", "YEAR"]`. -/
def schedSortLe (a b : ScheduleRecord) : Bool :=
  ordLex (compare a.Company_Name b.Company_Name)
    (ordLex (compare a.REPORT_YEAR b.REPORT_YEAR)
      (ordLex (compare a.LOB b.LOB)
        (ordLex (compare a.YEAR b.YEAR) true)))

/-- The aggregator's premium pipeline (source lines 298-301): deduplicate,
then produce a sorted view. -/
def aggregate_premium (l : List PremiumRecord) : List PremiumRecord :=
  sortLe premiumSortLe (drop_duplicates_premium l [])

/-- The aggregator's schedule pipeline (source lines 306-310): a sorted
view only, with no deduplication. -/
def aggregate_schedule (l : List ScheduleRecord) : List ScheduleRecord :=
  sortLe schedSortLe l

theorem dropDup_filter_mem (k : String × Nat × String × String) :
    ∀ (l : List PremiumRecord) (seen : List (String × Nat × String × String)),
      k ∈ seen →
      (drop_duplicates_premium l seen).filter (fun r => premiumKey r == k) = []
  | [], _, _ => rfl
  | r :: rest, seen, hk => by
    simp only [drop_duplicates_premium]
    by_cases h : premiumKey r ∈ seen
    · rw [if_pos h]
      exact dropDup_filter_mem k rest seen hk
    · rw [if_neg h]
      have hne : (premiumKey r == k) = false := by
        simp only [beq_eq_false_iff_ne, ne_eq]
        intro he
        exact h (he ▸ hk)
      simp only [List.filter_cons, hne, Bool.false_eq_true, if_false]
      exact dropDup_filter_mem k rest _ (List.mem_cons_of_mem _ hk)

theorem dropDup_filter_not_mem (k : String × Nat × String × String) :
    ∀ (l : List PremiumRecord) (seen : List (String × Nat × String × String)),
      k ∉ seen →
      (drop_duplicates_premium l seen).filter (fun r => premiumKey r == k) =
        (l.find? (fun r => premiumKey r == k)).toList
  | [], _, _ => rfl
  | r :: rest, seen, hk => by
    simp only [drop_duplicates_premium]
    by_cases hr : premiumKey r = k
    · have hmem : premiumKey r ∉ seen := by rw [hr]; exact hk
      rw [if_neg hmem]
      have hbeq : (premiumKey r == k) = true := by simp [hr]
      simp only [List.filter_cons, hbeq, if_true, List.find?_cons, Option.toList]
      rw [dropDup_filter_mem k rest (premiumKey r :: seen)
        (by rw [← hr]; exact List.mem_cons_self _ _)]
    · have hbeq : (premiumKey r == k) = false := by simp [hr]
      by_cases hmem : premiumKey r ∈ seen
      · rw [if_pos hmem]
        rw [dropDup_filter_not_mem k rest seen hk]
        simp [List.find?_cons, hbeq]
      · rw [if_neg hmem]
        simp only [List.filter_cons, hbeq, Bool.false_eq_true, if_false,
          List.find?_cons]
        rw [dropDup_filter_not_mem k rest (premiumKey r :: seen)
          (by
            intro hin
            rcases List.mem_cons.mp hin with h1 | h1
            · exact hr h1.symm
            · exact hk h1)]

theorem dropDup_key_nodup :
    ∀ (l : List PremiumRecord) (seen : List (String × Nat × String × String)),
      ((drop_duplicates_premium l seen).map premiumKey).Nodup ∧
      ∀ k ∈ (drop_duplicates_premium l seen).map premiumKey, k ∉ seen
  | [], _ => by simp [drop_duplicates_premium]
  | r :: rest, seen => by
    simp only [drop_duplicates_premium]
    by_cases h : premiumKey r ∈ seen
    · rw [if_pos h]
      exact dropDup_key_nodup rest seen
    · rw [if_neg h]
      obtain ⟨hnd, hnotin⟩ := dropDup_key_nodup rest (premiumKey r :: seen)
      refine ⟨?_, ?_⟩
      · simp only [List.map_cons, List.nodup_cons]
        exact ⟨fun hmem => (hnotin _ hmem) (List.mem_cons_self _ _), hnd⟩
      · intro k hkmem
        simp only [List.map_cons, List.mem_cons] at hkmem
        rcases hkmem with he | hm
        · rw [he]; exact h
        · intro hkseen
          exact (hnotin k hm) (List.mem_cons_of_mem _ hkseen)

/-- C5: the aggregator deduplicates premium records on the key
(NAIC, YEAR, State, LOB), keeping the first-seen record in input order —
the deduplicated output is unique on that key, and for every key its
records are exactly the first input record with that key — while schedule
records are not deduplicated at all: the schedule output is a permutation
of its input (the premium output is a permutation of the deduplicated
list). -/
theorem C5_dedup_first_seen (l : List PremiumRecord)
    (k : String × Nat × String × String) (ls : List ScheduleRecord) :
    ((drop_duplicates_premium l []).map premiumKey).Nodup ∧
    (drop_duplicates_premium l []).filter (fun r => premiumKey r == k) =
      (l.find? (fun r => premiumKey r == k)).toList ∧
    List.Perm (aggregate_premium l) (drop_duplicates_premium l []) ∧
    List.Perm (aggregate_schedule ls) ls :=
  ⟨(dropDup_key_nodup l []).1,
   dropDup_filter_not_mem k l [] (by simp),
   sortLe_perm premiumSortLe (drop_duplicates_premium l []),
   sortLe_perm schedSortLe ls⟩

/-- The two run-long accumulator collections of the main loop
(`all_page19_data`, `all_sched_p_data`; source lines 267-268). -/
abbrev Accum := List PremiumRecord × List ScheduleRecord

/-- One worksheet dispatch of the main loop (source lines 278-291):
classify, then run the family processor and extend the matching
accumulator. `identify_sched_p_lob` is called outside any worksheet-level
handler, so its modelled `AttributeError` escapes to the file-level
`except`, carrying the accumulators as they stood. -/
def worksheetStep (acc : Accum) (w : Worksheet) : Except Accum Accum :=
  match identify_report_type w.rows with
  | some "Page19" => Except.ok (acc.1 ++ process_page19_worksheet w, acc.2)
  | some "ScheduleP" =>
    match identify_sched_p_lob w with
    | Except.error _ => Except.error acc
    | Except.ok lob =>
      if lob = some "AL" ∨ lob = some "APD" then
        Except.ok (acc.1, acc.2 ++ process_schedule_p_worksheet w (lob.getD ""))
      else Except.ok acc
  | _ => Except.ok acc

/-- The worksheet loop inside one file's `try` block. -/
def runWorksheets : Accum → List Worksheet → Except Accum Accum
  | acc, [] => Except.ok acc
  | acc, w :: rest =>
    match worksheetStep acc w with
    | Except.ok acc2 => runWorksheets acc2 rest
    | Except.error acc2 => Except.error acc2

/-- One file iteration (source lines 270-293): the `except` clause catches
and logs the exception, so the accumulators keep whatever they held at the
raise and the run continues. -/
def runFile (acc : Accum) (file : List Worksheet) : Accum :=
  match runWorksheets acc file with
  | Except.ok acc2 => acc2
  | Except.error acc2 => acc2

/-- The file loop over all input files. -/
def runFiles : Accum → List (List Worksheet) → Accum
  | acc, [] => acc
  | acc, f :: fs => runFiles (runFile acc f) fs

/-- A valid premium-exhibit worksheet contributing one record. -/
def c8SheetA : Worksheet :=
  Worksheet.mk (some "PG14")
    [[Cell.mk (some 2) (some "2022 OF THE ACME CO (NAIC #1)")],
     [Cell.mk (some 1) (some "EXHIBIT OF PREMIUMS AND LOSSES")],
     [Cell.mk (some 8) (some "1"), Cell.mk none (some "2"),
      Cell.mk none (some "6"), Cell.mk none (some "9")],
     [Cell.mk (some 2) (some "21.2"), Cell.mk (some 8) (some "10"),
      Cell.mk none (some "20"), Cell.mk none (some "30"),
      Cell.mk none (some "40")]]

/-- A worksheet classified as a schedule report whose header check produces
nothing and whose `ss:Name` attribute is absent: `identify_sched_p_lob`
raises `AttributeError` on it. -/
def c8SheetB : Worksheet :=
  Worksheet.mk none [[Cell.mk (some 1) (some "SCHEDULE P - PART 1")]]

/-- The record contributed by `c8SheetA`. -/
def c8Record : PremiumRecord :=
  { YEAR := 2022, Compan_Name := "ACME CO", NAIC := "1",
    State := "GRAND_TOTAL", Liability := "APD", LOB := "21.2",
    GWP := some (mkRat 10 1), EP := some (mkRat 20 1),
    LOSSES_INCURRED := mkRat 70 1, DIRECT_LOSSES_INC := some (mkRat 30 1),
    DCC := some (mkRat 40 1) }

/-- Counterexample to C8 as stated: processing the file
`[c8SheetA, c8SheetB]` raises (the worksheet loop ends in `Except.error`),
yet at the catch point the accumulators already contain the record of the
first worksheet — partial state of the failed file leaks into the
accumulated results instead of being as if the file had contributed
nothing. -/
theorem C8_partial_leak_cex :
    runWorksheets ([], []) [c8SheetA, c8SheetB] =
      Except.error ([c8Record], []) ∧
    runFile ([], []) [c8SheetA, c8SheetB] ≠ (([], []) : Accum) := by
  constructor
  · with_unfolding_all decide
  · with_unfolding_all decide

/-- C8 amended: an exception raised while processing one input file is
caught and logged and processing continues with the next file, but the
accumulators keep exactly the contributions made by worksheets of the
failed file processed before the exception (the rest of that file is
skipped); in particular a file whose first worksheet raises leaves the
accumulators unchanged. -/
theorem C8_fault_containment_amended :
    (∀ (acc accE : Accum) (w : Worksheet) (rest : List Worksheet),
      worksheetStep acc w = Except.error accE →
      runFile acc (w :: rest) = accE) ∧
    (∀ (acc accE : Accum) (f : List Worksheet) (fs : List (List Worksheet)),
      runWorksheets acc f = Except.error accE →
      runFiles acc (f :: fs) = runFiles accE fs) := by
  constructor
  · intro acc accE w rest h
    unfold runFile runWorksheets
    rw [h]
  · intro acc accE f fs h
    have hf : runFile acc f = accE := by unfold runFile; rw [h]
    simp only [runFiles, hf]

/-- Witness for C8 amended: the sheet raising on the file's first
worksheet leaves the accumulators empty, and the run continues with the
next file. -/
theorem C8_fault_containment_amended_witness :
    runFile ([], []) [c8SheetB, c8SheetA] = (([], []) : Accum) ∧
    runFiles ([], []) [[c8SheetB, c8SheetA], [c8SheetA]] =
      runFiles ([], []) [[c8SheetA]] :=
  ⟨C8_fault_containment_amended.1 ([], []) ([], []) c8SheetB [c8SheetA]
      (by decide),
   C8_fault_containment_amended.2 ([], []) ([], []) [c8SheetB, c8SheetA]
      [[c8SheetA]] (by decide)⟩

/-- Column order of the premium output sheet: the dict-key insertion order
of the records built at source lines 151-156, which pandas `DataFrame`
preserves as its column order. -/
def premium_columns : List String :=
  ["YEAR", "Compan_Name", "NAIC", "State", "Liability", "LOB", "GWP", "EP",
   "LOSSES_INCURRED", "DIRECT_LOSSES_INC", "DCC"]

/-- `sched_p_column_order` (source line 307). -/
def sched_p_column_order : List String :=
  ["REPORT_YEAR", "Company_Name", "NAIC", "LOB", "YEAR", "EP", "LOSSES_INC",
   "CLAIMS"]

/-- The sheets of the output workbook (source lines 296-311): name and
column order per sheet, each written only when its record list is
nonempty. -/
def outputSheets (pg : List PremiumRecord) (sp : List ScheduleRecord) :
    List (String × List String) :=
  (if pg.isEmpty then [] else [("Page 14 Data", premium_columns)]) ++
  (if sp.isEmpty then [] else [("Schedule P Data", sched_p_column_order)])

/-- A premium record with every field defaulted. -/
def dummyPremium : PremiumRecord :=
  { YEAR := 0, Compan_Name := "", NAIC := "", State := "", Liability := "",
    LOB := "", GWP := none, EP := none, LOSSES_INCURRED := 0,
    DIRECT_LOSSES_INC := none, DCC := none }

/-- A schedule record with every field defaulted. -/
def dummySchedule : ScheduleRecord :=
  { REPORT_YEAR := 0, Company_Name := "", NAIC := "", LOB := "", YEAR := "",
    EP := none, LOSSES_INC := none, CLAIMS := none }

/-- Counterexample to C9 as stated: with both record lists nonempty the
workbook's sheets are named "Page 14 Data" and "Schedule P Data", not
"Premium Exhibit Data" and "Schedule Data", and the premium company column
is spelled "Compan_Name", not "Company_Name". -/
theorem C9_output_names_cex :
    (outputSheets [dummyPremium] [dummySchedule]).map Prod.fst ≠
      ["Premium Exhibit Data", "Schedule Data"] ∧
    premium_columns ≠
      ["YEAR", "Company_Name", "NAIC", "State", "Liability", "LOB", "GWP",
       "EP", "LOSSES_INCURRED", "DIRECT_LOSSES_INC", "DCC"] := by
  constructor
  · decide
  · decide

/-- C9 amended: the output artifact consists of two sheets named
"Page 14 Data" and "Schedule P Data" (each written only when it has
records), the first with columns [YEAR, Compan_Name, NAIC, State,
Liability, LOB, GWP, EP, LOSSES_INCURRED, DIRECT_LOSSES_INC, DCC] and the
second with the fixed column order [REPORT_YEAR, Company_Name, NAIC, LOB,
YEAR, EP, LOSSES_INC, CLAIMS]. -/
theorem C9_output_sheets_amended (pg : List PremiumRecord)
    (sp : List ScheduleRecord) (hpg : pg ≠ []) (hsp : sp ≠ []) :
    outputSheets pg sp =
      [("Page 14 Data", premium_columns),
       ("Schedule P Data", sched_p_column_order)] ∧
    premium_columns =
      ["YEAR", "Compan_Name", "NAIC", "State", "Liability", "LOB", "GWP",
       "EP", "LOSSES_INCURRED", "DIRECT_LOSSES_INC", "DCC"] ∧
    sched_p_column_order =
      ["REPORT_YEAR", "Company_Name", "NAIC", "LOB", "YEAR", "EP",
       "LOSSES_INC", "CLAIMS"] := by
  cases pg with
  | nil => exact absurd rfl hpg
  | cons a t =>
    cases sp with
    | nil => exact absurd rfl hsp
    | cons b u => exact ⟨rfl, rfl, rfl⟩

/-- Witness for C9 amended, at singleton record lists. -/
theorem C9_output_sheets_amended_witness :
    outputSheets [dummyPremium] [dummySchedule] =
      [("Page 14 Data", premium_columns),
       ("Schedule P Data", sched_p_column_order)] :=
  (C9_output_sheets_amended [dummyPremium] [dummySchedule]
    (by decide) (by decide)).1

end SPGlobal
